import Mathlib

/-!
Verification of the roll-call attendance core of the chatbot plugin.

The Go sources are shallowly embedded: the in-memory session store
(RollCallManager, a map from channel id to RollCall guarded by a mutex)
becomes a function from channel ids to optional sessions, and each store
operation becomes a pure function returning Except, mirroring the
(value, error) pairs of the Go methods. Wall-clock readings and network
results are passed in as explicit inputs.
-/

namespace ChatbotPlugin

/-- Mirror of the Go struct RollCall. Go maps with Bool values are
modelled as lists of keys (a key is present exactly when the Go map holds
true for it); the nil versus initialized distinction of
CheckoutRecordedUsers is kept with Option. StartTime is an abstract Nat. -/
structure RollCall where
  channelID : String
  startTime : Nat
  initiatorID : String
  respondedIDs : List String
  erpRecordedUsers : List String
  active : Bool
  responseCount : Nat
  checkoutRecordedUsers : Option (List String)
deriving DecidableEq

/-- The activeRollCalls map of RollCallManager. -/
abbrev Store := String → Option RollCall

/-- A fresh manager: make(map[string]*RollCall). -/
def emptyStore : Store := fun _ => none

/-- Go map assignment r.activeRollCalls[channelID] = rollCall. -/
def Store.update (s : Store) (ch : String) (rc : RollCall) : Store :=
  fun c => if c = ch then some rc else s c

/-- Go map assignment m[k] = true, as key insertion. -/
def insertKey (m : List String) (k : String) : List String :=
  if k ∈ m then m else k :: m

/-- The condition exists and rollCall.Active used by StartRollCall. -/
def hasActive (s : Store) (ch : String) : Bool :=
  match s ch with
  | some rc => rc.active
  | none => false

/-- The fresh session built by StartRollCall; ResponseCount and
CheckoutRecordedUsers are omitted in the Go literal, hence zero and nil. -/
def freshRollCall (channelID initiatorID : String) (now : Nat) : RollCall :=
  { channelID := channelID
    startTime := now
    initiatorID := initiatorID
    respondedIDs := []
    erpRecordedUsers := []
    active := true
    responseCount := 0
    checkoutRecordedUsers := none }

/-- RollCallManager.StartRollCall. -/
def StartRollCall (s : Store) (channelID initiatorID : String) (now : Nat) :
    Except String (Store × RollCall) :=
  if hasActive s channelID = true then
    Except.error "a roll call is already active in this channel"
  else
    let rollCall := freshRollCall channelID initiatorID now
    Except.ok (Store.update s channelID rollCall, rollCall)

/-- RollCallManager.EndRollCall. -/
def EndRollCall (s : Store) (channelID : String) :
    Except String (Store × RollCall) :=
  match s channelID with
  | none => Except.error "no active roll call in this channel"
  | some rollCall =>
    if rollCall.active = true then
      let rc2 := { rollCall with active := false }
      Except.ok (Store.update s channelID rc2, rc2)
    else Except.error "no active roll call in this channel"

/-- RollCallManager.RespondToRollCall. -/
def RespondToRollCall (s : Store) (channelID userID : String) :
    Except String (Store × RollCall × Bool) :=
  match s channelID with
  | none => Except.error "no active roll call in this channel"
  | some rollCall =>
    if rollCall.active = true then
      if userID ∈ rollCall.respondedIDs then
        Except.ok (s, rollCall, false)
      else
        let rc2 := { rollCall with
          respondedIDs := userID :: rollCall.respondedIDs
          responseCount := rollCall.responseCount + 1 }
        Except.ok (Store.update s channelID rc2, rc2, true)
    else Except.error "no active roll call in this channel"

/-- RollCallManager.MarkUserERPRecorded. Note: it checks only that the
session exists, not that it is active. -/
def MarkUserERPRecorded (s : Store) (channelID userID : String) :
    Except String Store :=
  match s channelID with
  | none => Except.error "no roll call in this channel"
  | some rollCall =>
    Except.ok (Store.update s channelID
      { rollCall with erpRecordedUsers := insertKey rollCall.erpRecordedUsers userID })

/-- RollCallManager.IsUserERPRecorded. -/
def IsUserERPRecorded (s : Store) (channelID userID : String) :
    Except String Bool :=
  match s channelID with
  | none => Except.error "no roll call in this channel"
  | some rollCall => Except.ok (decide (userID ∈ rollCall.erpRecordedUsers))

/-- RollCallManager.MarkUserCheckoutRecorded; initializes the nil map. -/
def MarkUserCheckoutRecorded (s : Store) (channelID userID : String) :
    Except String Store :=
  match s channelID with
  | none => Except.error "no roll call in this channel"
  | some rollCall =>
    let cur := rollCall.checkoutRecordedUsers.getD []
    Except.ok (Store.update s channelID
      { rollCall with checkoutRecordedUsers := some (insertKey cur userID) })

/-- RollCallManager.IsUserCheckoutRecorded. -/
def IsUserCheckoutRecorded (s : Store) (channelID userID : String) :
    Except String Bool :=
  match s channelID with
  | none => Except.error "no roll call in this channel"
  | some rollCall =>
    match rollCall.checkoutRecordedUsers with
    | none => Except.ok false
    | some m => Except.ok (decide (userID ∈ m))

/-- The lifecycle operations named by the claims. -/
inductive RollOp where
  | start (channelID initiatorID : String) (now : Nat)
  | respond (channelID userID : String)
  | close (channelID : String)
deriving DecidableEq

/-- One operation against the store; on error the store is unchanged
(the Go methods return early without mutating). -/
def stepOp (s : Store) : RollOp → Store
  | RollOp.start ch init now =>
    match StartRollCall s ch init now with
    | Except.ok (s2, _) => s2
    | Except.error _ => s
  | RollOp.respond ch user =>
    match RespondToRollCall s ch user with
    | Except.ok (s2, _, _) => s2
    | Except.error _ => s
  | RollOp.close ch =>
    match EndRollCall s ch with
    | Except.ok (s2, _) => s2
    | Except.error _ => s

/-- Run a sequence of lifecycle operations. -/
def runOps (s : Store) (ops : List RollOp) : Store := ops.foldl stepOp s

theorem Store.update_self (s : Store) (ch : String) (rc : RollCall) :
    Store.update s ch rc ch = some rc := by
  simp [Store.update]

theorem Store.update_lookup (s : Store) (ch c : String) (rc : RollCall) :
    Store.update s ch rc c = if c = ch then some rc else s c := rfl

/-- Invariant: every stored session counts exactly its distinct responders. -/
def countInv (s : Store) : Prop :=
  ∀ ch rc, s ch = some rc →
    rc.responseCount = rc.respondedIDs.length ∧ rc.respondedIDs.Nodup

theorem countInv_empty : countInv emptyStore := by
  intro ch rc h
  simp [emptyStore] at h

theorem countInv_update {s : Store} {ch : String} {rc : RollCall}
    (h : countInv s)
    (hrc : rc.responseCount = rc.respondedIDs.length ∧ rc.respondedIDs.Nodup) :
    countInv (Store.update s ch rc) := by
  intro c rc2 hc
  rw [Store.update_lookup] at hc
  by_cases hcc : c = ch
  · rw [if_pos hcc] at hc
    cases hc
    exact hrc
  · rw [if_neg hcc] at hc
    exact h c rc2 hc

theorem countInv_stepOp {s : Store} (h : countInv s) (op : RollOp) :
    countInv (stepOp s op) := by
  cases op with
  | start ch init now =>
    by_cases hact : hasActive s ch = true
    · simpa [stepOp, StartRollCall, hact] using h
    · have hstep : stepOp s (RollOp.start ch init now) =
          Store.update s ch (freshRollCall ch init now) := by
        simp [stepOp, StartRollCall, hact]
      rw [hstep]
      exact countInv_update h (by simp [freshRollCall])
  | respond ch user =>
    cases hs : s ch with
    | none => simpa [stepOp, RespondToRollCall, hs] using h
    | some rc =>
      by_cases hact : rc.active = true
      · by_cases hmem : user ∈ rc.respondedIDs
        · simpa [stepOp, RespondToRollCall, hs, hact, hmem] using h
        · have hstep : stepOp s (RollOp.respond ch user) =
              Store.update s ch { rc with
                respondedIDs := user :: rc.respondedIDs
                responseCount := rc.responseCount + 1 } := by
            simp [stepOp, RespondToRollCall, hs, hact, hmem]
          rw [hstep]
          obtain ⟨hcount, hnodup⟩ := h ch rc hs
          exact countInv_update h (by simp [hcount, hnodup, hmem])
      · simpa [stepOp, RespondToRollCall, hs, hact] using h
  | close ch =>
    cases hs : s ch with
    | none => simpa [stepOp, EndRollCall, hs] using h
    | some rc =>
      by_cases hact : rc.active = true
      · have hstep : stepOp s (RollOp.close ch) =
            Store.update s ch { rc with active := false } := by
          simp [stepOp, EndRollCall, hs, hact]
        rw [hstep]
        obtain ⟨hcount, hnodup⟩ := h ch rc hs
        exact countInv_update h (by simp [hcount, hnodup])
      · simpa [stepOp, EndRollCall, hs, hact] using h

theorem countInv_runOps {s : Store} (h : countInv s) (ops : List RollOp) :
    countInv (runOps s ops) := by
  induction ops generalizing s with
  | nil => simpa [runOps] using h
  | cons op rest ih =>
    have : runOps s (op :: rest) = runOps (stepOp s op) rest := rfl
    rw [this]
    exact ih (countInv_stepOp h op)

/-- After a successful respond, the stored session is the returned one:
it is active and holds the responder. When the response was not new the
store is unchanged. -/
theorem respond_ok_dest {s s1 : Store} {ch user : String} {rc1 : RollCall}
    {b : Bool}
    (h : RespondToRollCall s ch user = Except.ok (s1, rc1, b)) :
    s1 ch = some rc1 ∧ rc1.active = true ∧ user ∈ rc1.respondedIDs ∧
    (b = false → s1 = s) := by
  cases hs : s ch with
  | none => simp [RespondToRollCall, hs] at h
  | some rc =>
    by_cases hact : rc.active = true
    · by_cases hmem : user ∈ rc.respondedIDs
      · simp [RespondToRollCall, hs, hact, hmem] at h
        obtain ⟨h1, h2, h3⟩ := h
        subst h1; subst h2; subst h3
        exact ⟨hs, hact, hmem, fun _ => rfl⟩
      · simp [RespondToRollCall, hs, hact, hmem] at h
        obtain ⟨h1, h2, h3⟩ := h
        subst h1; subst h2
        refine ⟨Store.update_self s ch _, by simp [hact], by simp, ?_⟩
        intro hb
        rw [hb] at h3
        exact absurd h3 (by simp)
    · simp [RespondToRollCall, hs, hact] at h

/-- A repeated respond for the same user returns isNewResponse false and
leaves the store and the session unchanged. -/
theorem respond_again_false {s s1 : Store} {ch user : String}
    {rc1 : RollCall} {b : Bool}
    (h : RespondToRollCall s ch user = Except.ok (s1, rc1, b)) :
    RespondToRollCall s1 ch user = Except.ok (s1, rc1, false) := by
  obtain ⟨h1, h2, h3, _⟩ := respond_ok_dest h
  simp [RespondToRollCall, h1, h2, h3]

/-! Orchestration: handleRollCallResponse of roll_call_handlers.go. The
chat posts it builds are elided (they do not touch the store); the ERP
network results and the checkout-time computation are inputs. -/

/-- The Go handler discards the error of a mark call (underscore assign)
and continues with whatever state resulted. -/
def applyMark (s : Store) (r : Except String Store) : Store :=
  match r with
  | Except.ok s2 => s2
  | Except.error _ => s

/-- Observable outcome of handleRollCallResponse: the final store state,
whether RecordEmployeeCheckin was invoked and whether
RecordEmployeeCheckout was invoked. -/
structure HandleOutcome where
  store : Store
  calledCheckin : Bool
  calledCheckout : Bool

/-- handleRollCallResponse. checkinResult is the outcome of
RecordEmployeeCheckin if invoked, checkoutTimeStr of
GetCheckoutTimeForToday, checkoutResult of RecordEmployeeCheckout. -/
def handleRollCallResponse (s : Store) (channelID userID : String)
    (checkinResult checkoutTimeStr checkoutResult : Except String String) :
    HandleOutcome :=
  match RespondToRollCall s channelID userID with
  | Except.error _ => ⟨s, false, false⟩
  | Except.ok (s1, _rc, isNewResponse) =>
    if isNewResponse = true then
      let alreadyRecorded :=
        match IsUserERPRecorded s1 channelID userID with
        | Except.ok b => b
        | Except.error _ => false
      if alreadyRecorded = true then ⟨s1, false, false⟩
      else
        match checkinResult with
        | Except.error _ => ⟨s1, true, false⟩
        | Except.ok _formattedTime =>
          let s2 := applyMark s1 (MarkUserERPRecorded s1 channelID userID)
          match checkoutTimeStr with
          | Except.error _ => ⟨s2, true, false⟩
          | Except.ok _ct =>
            match checkoutResult with
            | Except.error _ => ⟨s2, true, true⟩
            | Except.ok _ =>
              let s3 := applyMark s2 (MarkUserCheckoutRecorded s2 channelID userID)
              ⟨s3, true, true⟩
    else ⟨s1, false, false⟩

/-! Scheduler: CronJob.checkScheduledTasks. The current Vietnam time is
an input: none when GetVietnamTime failed, some (hour, minute) when it
succeeded. The configured trigger strings come from the plugin
configuration with the documented defaults. -/

def DefaultRollCallStartTime : String := "08:00:00"

def DefaultAutoCheckoutTime : String := "17:30:00"

structure CronConfig where
  autoCheckoutTime : String
  autoStartRollCallTime : String
deriving DecidableEq

inductive CronAction where
  | startDailyRollCall
  | endDailyRollCall
  | autoRecordCheckouts
deriving DecidableEq

/-- Two-digit zero-padded decimal, like the hour and minute fields of the
Go time format 15:04:00 (hours and minutes are below 100). -/
def pad2 (n : Nat) : String :=
  String.mk [Nat.digitChar (n / 10 % 10), Nat.digitChar (n % 10)]

/-- vietTime.Format of the layout 15:04:00. -/
def formatHHMM00 (hour minute : Nat) : String :=
  pad2 hour ++ ":" ++ pad2 minute ++ ":00"

/-- AutoCheckoutTime with the empty-string default substitution. -/
def effectiveAutoCheckoutTime (cfg : CronConfig) : String :=
  if cfg.autoCheckoutTime = "" then DefaultAutoCheckoutTime
  else cfg.autoCheckoutTime

/-- AutoStartRollCallTime with the empty-string default substitution. -/
def effectiveAutoStartRollCallTime (cfg : CronConfig) : String :=
  if cfg.autoStartRollCallTime = "" then DefaultRollCallStartTime
  else cfg.autoStartRollCallTime

/-- checkScheduledTasks, configurable-trigger revision: fires
StartDailyRollCall and EndDailyRollCall on exact string equality of the
formatted current time with the trigger strings; a failed timezone
resolution skips the tick. -/
def checkScheduledTasks (vietTime : Option (Nat × Nat)) (cfg : CronConfig) :
    List CronAction :=
  match vietTime with
  | none => []
  | some (h, m) =>
    let currentTimeStr := formatHHMM00 h m
    (if currentTimeStr = effectiveAutoStartRollCallTime cfg then
      [CronAction.startDailyRollCall] else []) ++
    (if currentTimeStr = effectiveAutoCheckoutTime cfg then
      [CronAction.endDailyRollCall] else [])

/-- checkScheduledTasks, checkout-announcement revision: fires
AutoRecordCheckouts on exact match with the configured checkout time. -/
def checkScheduledTasksCheckout (vietTime : Option (Nat × Nat))
    (cfg : CronConfig) : List CronAction :=
  match vietTime with
  | none => []
  | some (h, m) =>
    let currentTimeStr := formatHHMM00 h m
    if currentTimeStr = effectiveAutoCheckoutTime cfg then
      [CronAction.autoRecordCheckouts]
    else []

/-! External sync adapter: NewEmployeeCheckin of erp_integration.go.
Clock readings are inputs: vietNow is the civil time returned by
GetVietnamTime when it succeeds, serverTime the civil decomposition of
the supplied serverTimeMillis via time.UnixMilli. -/

structure DateTime where
  year : Nat
  month : Nat
  day : Nat
  hour : Nat
  minute : Nat
  second : Nat
deriving DecidableEq

/-- Four-digit zero-padded decimal for the year field. -/
def pad4 (n : Nat) : String :=
  String.mk [Nat.digitChar (n / 1000 % 10), Nat.digitChar (n / 100 % 10),
    Nat.digitChar (n / 10 % 10), Nat.digitChar (n % 10)]

/-- The Go time format 2006-01-02 15:04:05. -/
def formatDateTime (t : DateTime) : String :=
  pad4 t.year ++ "-" ++ pad2 t.month ++ "-" ++ pad2 t.day ++ " " ++
    pad2 t.hour ++ ":" ++ pad2 t.minute ++ ":" ++ pad2 t.second

/-- Mirror of the Go struct EmployeeCheckin. -/
structure EmployeeCheckin where
  docstatus : Nat
  doctype : String
  name : String
  isLocal : Bool
  unsaved : Bool
  owner : String
  logType : String
  time : String
  skipAutoAttendance : Nat
  offshift : Nat
  employeeName : String
  employee : String
deriving DecidableEq

/-- NewEmployeeCheckin. uniqueID stands for generateUniqueID. Returns the
record and the formatted timestamp it carries. -/
def NewEmployeeCheckin (employeeID uniqueID : String)
    (vietNow : Option DateTime) (serverTime : DateTime) :
    EmployeeCheckin × String :=
  let uniqueName := "new-employee-checkin-" ++ uniqueID
  let formattedTime :=
    match vietNow with
    | some t => formatDateTime t
    | none => formatDateTime serverTime
  ({ docstatus := 0
     doctype := "Employee Checkin"
     name := uniqueName
     isLocal := true
     unsaved := true
     owner := "demo@example.com"
     logType := "IN"
     time := formattedTime
     skipAutoAttendance := 0
     offshift := 0
     employeeName := employeeID
     employee := employeeID }, formattedTime)

/-! Restricted HTTP transport: hostnameAllowed and
restrictedTransport.RoundTrip of rollup.go. -/

/-- strings.Contains. -/
def strContainsSub (s sub : String) : Bool :=
  (List.range (s.length + 1)).any fun i => sub.data.isPrefixOf (s.data.drop i)

/-- The pattern loop of hostnameAllowed. For a wildcard pattern a hostname
holding an IPv6 zone makes the whole function return false at once. -/
def hostnamePatternsMatch (hostname : String) : List String → Bool
  | [] => false
  | p :: rest =>
    if p = "*" then true
    else if p.startsWith "*." then
      if hostname.data.contains '%' then false
      else if hostname.endsWith (p.drop 1) then true
      else hostnamePatternsMatch hostname rest
    else if hostname = p then true
    else hostnamePatternsMatch hostname rest

/-- hostnameAllowed: a hardcoded substring test for the ERP domain short
circuits the allow-list. -/
def hostnameAllowed (hostname : String) (allowedPatterns : List String) :
    Bool :=
  if strContainsSub hostname "erp-demo.workdone.vn" then true
  else hostnamePatternsMatch hostname allowedPatterns

deriving instance DecidableEq for Except

/-- Outcome of restrictedTransport.RoundTrip: the value returned to the
caller, and whether the wrapped transport was invoked (network I/O). -/
structure RoundTripOutcome where
  result : Except String Unit
  invokedWrapped : Bool
deriving DecidableEq

/-- restrictedTransport.RoundTrip. The input is the hostname of the
request URL, none when the request has no URL; Except.ok stands for
delegation to the wrapped transport (the CORS header mutation for the
ERP host does not affect the claim and is elided). -/
def restrictedRoundTrip (allowedHosts : List String)
    (urlHostname : Option String) : RoundTripOutcome :=
  match urlHostname with
  | none => ⟨Except.error "request has no URL", false⟩
  | some hostname =>
    if hostnameAllowed hostname allowedHosts = true then ⟨Except.ok (), true⟩
    else
      ⟨Except.error ("hostname \"" ++ hostname ++
        "\" is not on allowed list, add this host to allowed upstream hosts"),
       false⟩

/-! Concrete stores used by the witnesses and counterexamples. -/

/-- A store holding one active session in channel c started by u0. -/
def startedStore : Store := runOps emptyStore [RollOp.start "c" "u0" 0]

/-- A store holding one closed session in channel c. -/
def closedStore : Store :=
  runOps emptyStore [RollOp.start "c" "u0" 0, RollOp.close "c"]

theorem mem_insertKey_self (m : List String) (k : String) : k ∈ insertKey m k := by
  by_cases h : k ∈ m <;> simp [insertKey, h]

/-- C1: for every sequence of StartRollCall, RespondToRollCall and
EndRollCall operations from the empty manager, each stored session has
ResponseCount equal to the cardinality of its RespondedIDs set; on an
active session a user not yet in the set gets isNewResponse true with the
counter incremented, and every later respond for the same user returns
isNewResponse false with store and counter unchanged. -/
theorem respond_idempotent_and_count (ops : List RollOp) (ch user : String)
    (rc : RollCall) (h : runOps emptyStore ops ch = some rc) :
    rc.responseCount = rc.respondedIDs.toFinset.card ∧
    (rc.active = true → user ∉ rc.respondedIDs →
      RespondToRollCall (runOps emptyStore ops) ch user =
        Except.ok (Store.update (runOps emptyStore ops) ch
          { rc with respondedIDs := user :: rc.respondedIDs
                    responseCount := rc.responseCount + 1 },
          { rc with respondedIDs := user :: rc.respondedIDs
                    responseCount := rc.responseCount + 1 }, true)) ∧
    (∀ s1 rc1 b,
      RespondToRollCall (runOps emptyStore ops) ch user =
        Except.ok (s1, rc1, b) →
      RespondToRollCall s1 ch user = Except.ok (s1, rc1, false)) := by
  obtain ⟨hcount, hnodup⟩ := countInv_runOps countInv_empty ops ch rc h
  refine ⟨?_, ?_, ?_⟩
  · rw [hcount, List.toFinset_card_of_nodup hnodup]
  · intro hact hmem
    simp [RespondToRollCall, h, hact, hmem]
  · intro s1 rc1 b hr
    exact respond_again_false hr

/-- C1 witness at a concrete run of one start operation. -/
theorem respond_idempotent_and_count_witness :
    runOps emptyStore [RollOp.start "c" "u0" 0] "c" =
      some (freshRollCall "c" "u0" 0) ∧
    (freshRollCall "c" "u0" 0).responseCount =
      (freshRollCall "c" "u0" 0).respondedIDs.toFinset.card :=
  ⟨by decide, (respond_idempotent_and_count [RollOp.start "c" "u0" 0] "c" "u1"
    (freshRollCall "c" "u0" 0) (by decide)).1⟩

/-- C3: StartRollCall on a channel with an active session errors and
leaves the store, hence the existing session with all its fields,
unchanged. -/
theorem start_on_active_conflict (s : Store) (ch init : String) (now : Nat)
    (rc : RollCall) (hs : s ch = some rc) (hact : rc.active = true) :
    StartRollCall s ch init now =
      Except.error "a roll call is already active in this channel" ∧
    stepOp s (RollOp.start ch init now) = s ∧
    stepOp s (RollOp.start ch init now) ch = some rc := by
  have hA : hasActive s ch = true := by simp [hasActive, hs, hact]
  exact ⟨by simp [StartRollCall, hA], by simp [stepOp, StartRollCall, hA],
    by simp [stepOp, StartRollCall, hA, hs]⟩

/-- C3 witness on a store with one active session. -/
theorem start_on_active_conflict_witness :
    startedStore "c" = some (freshRollCall "c" "u0" 0) ∧
    (freshRollCall "c" "u0" 0).active = true ∧
    StartRollCall startedStore "c" "u1" 5 =
      Except.error "a roll call is already active in this channel" :=
  ⟨by decide, by decide,
    (start_on_active_conflict startedStore "c" "u1" 5 (freshRollCall "c" "u0" 0)
      (by decide) (by decide)).1⟩

/-- C10: StartRollCall on a channel whose stored session is closed
succeeds: it overwrites the closed session with a fresh active session
holding empty responder and synced sets and a zero counter. -/
theorem start_overwrites_closed (s : Store) (ch init : String) (now : Nat)
    (rc : RollCall) (hs : s ch = some rc) (hact : rc.active = false) :
    StartRollCall s ch init now =
      Except.ok (Store.update s ch (freshRollCall ch init now),
        freshRollCall ch init now) ∧
    Store.update s ch (freshRollCall ch init now) ch =
      some (freshRollCall ch init now) ∧
    (freshRollCall ch init now).respondedIDs = [] ∧
    (freshRollCall ch init now).erpRecordedUsers = [] ∧
    (freshRollCall ch init now).checkoutRecordedUsers = none ∧
    (freshRollCall ch init now).active = true ∧
    (freshRollCall ch init now).responseCount = 0 := by
  have hA : hasActive s ch = false := by simp [hasActive, hs, hact]
  exact ⟨by simp [StartRollCall, hA], Store.update_self s ch _,
    rfl, rfl, rfl, rfl, rfl⟩

/-- C10 witness on a store with one closed session. -/
theorem start_overwrites_closed_witness :
    closedStore "c" = some { freshRollCall "c" "u0" 0 with active := false } ∧
    StartRollCall closedStore "c" "u1" 7 =
      Except.ok (Store.update closedStore "c" (freshRollCall "c" "u1" 7),
        freshRollCall "c" "u1" 7) :=
  ⟨by decide,
    (start_overwrites_closed closedStore "c" "u1" 7
      { freshRollCall "c" "u0" 0 with active := false }
      (by decide) (by decide)).1⟩

/-- C5: on a tick with resolved Vietnam time, a lifecycle action fires
iff the formatted HH:MM:00 string is string-equal to that action trigger
string (the configured value, or the documented default when unset); when
no trigger matches, no action fires. -/
theorem action_fires_iff_exact_match (h m : Nat) (cfg : CronConfig) :
    (CronAction.startDailyRollCall ∈ checkScheduledTasks (some (h, m)) cfg ↔
      formatHHMM00 h m = effectiveAutoStartRollCallTime cfg) ∧
    (CronAction.endDailyRollCall ∈ checkScheduledTasks (some (h, m)) cfg ↔
      formatHHMM00 h m = effectiveAutoCheckoutTime cfg) ∧
    (CronAction.autoRecordCheckouts ∈
        checkScheduledTasksCheckout (some (h, m)) cfg ↔
      formatHHMM00 h m = effectiveAutoCheckoutTime cfg) ∧
    (formatHHMM00 h m ≠ effectiveAutoStartRollCallTime cfg →
      formatHHMM00 h m ≠ effectiveAutoCheckoutTime cfg →
      checkScheduledTasks (some (h, m)) cfg = [] ∧
      checkScheduledTasksCheckout (some (h, m)) cfg = []) := by
  by_cases h1 : formatHHMM00 h m = effectiveAutoStartRollCallTime cfg <;>
    by_cases h2 : formatHHMM00 h m = effectiveAutoCheckoutTime cfg <;>
    simp [checkScheduledTasks, checkScheduledTasksCheckout, h1, h2]

/-- C5 witness: with an empty configuration the default start trigger
08:00:00 fires at 08:00. -/
theorem action_fires_iff_exact_match_witness :
    formatHHMM00 8 0 = effectiveAutoStartRollCallTime ⟨"", ""⟩ ∧
    CronAction.startDailyRollCall ∈ checkScheduledTasks (some (8, 0)) ⟨"", ""⟩ :=
  ⟨by decide, (action_fires_iff_exact_match 8 0 ⟨"", ""⟩).1.mpr (by decide)⟩

/-- C6: when timezone resolution fails the tick is skipped entirely: no
comparison happens and no action fires, in either scheduler revision. -/
theorem tick_skipped_on_timezone_failure (cfg : CronConfig) :
    checkScheduledTasksCheckout none cfg = [] ∧
    checkScheduledTasks none cfg = [] :=
  ⟨rfl, rfl⟩

/-- C7: NewEmployeeCheckin always produces a record; with Vietnam time
resolved the timestamp is that time formatted YYYY-MM-DD HH:MM:SS, and on
failure it is the supplied server time in the same format; the record
carries that timestamp. -/
theorem checkin_timestamp_fallback (employeeID uid : String)
    (t serverTime : DateTime) (v : Option DateTime) :
    (NewEmployeeCheckin employeeID uid (some t) serverTime).2 =
      formatDateTime t ∧
    (NewEmployeeCheckin employeeID uid none serverTime).2 =
      formatDateTime serverTime ∧
    (NewEmployeeCheckin employeeID uid v serverTime).1.time =
      (NewEmployeeCheckin employeeID uid v serverTime).2 ∧
    (NewEmployeeCheckin employeeID uid v serverTime).1.doctype =
      "Employee Checkin" := by
  refine ⟨rfl, rfl, ?_, ?_⟩ <;> cases v <;> rfl

/-- C8 amended: a hostname rejected by hostnameAllowed, that is one not
containing the hardcoded ERP substring and matching no allowed pattern,
makes RoundTrip return an error without invoking the wrapped transport;
a hostname containing the ERP substring bypasses the allow-list. -/
theorem disallowed_host_fails_closed (hostname : String)
    (allowedHosts : List String)
    (h : hostnameAllowed hostname allowedHosts = false) :
    restrictedRoundTrip allowedHosts (some hostname) =
      ⟨Except.error ("hostname \"" ++ hostname ++
        "\" is not on allowed list, add this host to allowed upstream hosts"),
       false⟩ := by
  simp [restrictedRoundTrip, h]

/-- C8 witness at a concrete disallowed hostname. -/
theorem disallowed_host_fails_closed_witness :
    hostnameAllowed "evil.example" [] = false ∧
    (restrictedRoundTrip [] (some "evil.example")).invokedWrapped = false :=
  ⟨by decide, by rw [disallowed_host_fails_closed "evil.example" [] (by decide)]⟩

/-- C8 counterexample: a hostname on no allow-list (the list is empty)
but containing the ERP substring is let through: the wrapped transport is
invoked and no error is returned, refuting fail-closed for hosts off the
list. -/
theorem allowlist_bypass_counterexample :
    hostnamePatternsMatch "erp-demo.workdone.vn.evil.example" [] = false ∧
    restrictedRoundTrip [] (some "erp-demo.workdone.vn.evil.example") =
      ⟨Except.ok (), true⟩ :=
  ⟨rfl, by decide⟩

theorem isUserERP_applyMark_mark {s : Store} {ch user : String}
    {rc : RollCall} (hs : s ch = some rc) :
    IsUserERPRecorded (applyMark s (MarkUserERPRecorded s ch user)) ch user =
      Except.ok true := by
  simp [MarkUserERPRecorded, hs, applyMark, IsUserERPRecorded,
    Store.update_self, mem_insertKey_self]

theorem isUserERP_applyMark_markCheckout {s : Store} {ch user : String} :
    IsUserERPRecorded (applyMark s (MarkUserCheckoutRecorded s ch user))
      ch user = IsUserERPRecorded s ch user := by
  cases hs : s ch with
  | none => simp [MarkUserCheckoutRecorded, hs, applyMark]
  | some rc =>
    simp [MarkUserCheckoutRecorded, hs, applyMark, IsUserERPRecorded,
      Store.update_self]

/-- C2 amended: RecordEmployeeCheckin is invoked exactly when
RespondToRollCall returned isNewResponse true and IsUserERPRecorded is
false for that channel and user; MarkUserERPRecorded happens exactly when
the sync succeeded; on sync failure the recorded flag stays false and the
user stays in the responder set; but a repeated response, whose
isNewResponse is false, does not retry the sync. -/
theorem checkin_sync_gating (s : Store) (ch user : String)
    (cin ct cout : Except String String) :
    ((handleRollCallResponse s ch user cin ct cout).calledCheckin = true ↔
      (∃ s1 rc1, RespondToRollCall s ch user = Except.ok (s1, rc1, true) ∧
        IsUserERPRecorded s1 ch user = Except.ok false)) ∧
    (∀ fmt, cin = Except.ok fmt →
      (handleRollCallResponse s ch user cin ct cout).calledCheckin = true →
      IsUserERPRecorded (handleRollCallResponse s ch user cin ct cout).store
        ch user = Except.ok true) ∧
    (∀ e, cin = Except.error e →
      (handleRollCallResponse s ch user cin ct cout).calledCheckin = true →
      IsUserERPRecorded (handleRollCallResponse s ch user cin ct cout).store
          ch user = Except.ok false ∧
      ∃ rc2, (handleRollCallResponse s ch user cin ct cout).store ch =
          some rc2 ∧ user ∈ rc2.respondedIDs) ∧
    (∀ s1 rc1, RespondToRollCall s ch user = Except.ok (s1, rc1, false) →
      (handleRollCallResponse s ch user cin ct cout).calledCheckin = false) := by
  cases hr : RespondToRollCall s ch user with
  | error e0 =>
    have hout : handleRollCallResponse s ch user cin ct cout = ⟨s, false, false⟩ := by
      simp [handleRollCallResponse, hr]
    rw [hout]
    refine ⟨?_, ?_, ?_, ?_⟩
    · constructor
      · intro hc; cases hc
      · rintro ⟨s1, rc1, hresp, -⟩
        simp at hresp
    · intro fmt _ hc; cases hc
    · intro e hcin hc; cases hc
    · intro s1 rc1 _; rfl
  | ok val =>
    obtain ⟨s1, rc1, b⟩ := val
    obtain ⟨hs1, hact1, hmem1, hold⟩ := respond_ok_dest hr
    have hIs : IsUserERPRecorded s1 ch user =
        Except.ok (decide (user ∈ rc1.erpRecordedUsers)) := by
      simp [IsUserERPRecorded, hs1]
    cases b with
    | false =>
      have hout : handleRollCallResponse s ch user cin ct cout =
          ⟨s1, false, false⟩ := by
        simp [handleRollCallResponse, hr]
      rw [hout]
      refine ⟨?_, ?_, ?_, ?_⟩
      · constructor
        · intro hc; cases hc
        · rintro ⟨s1x, rc1x, hresp, -⟩
          simp at hresp
      · intro fmt _ hc; cases hc
      · intro e hcin hc; cases hc
      · intro s1x rc1x _; rfl
    | true =>
      by_cases hrec : user ∈ rc1.erpRecordedUsers
      · have hout : handleRollCallResponse s ch user cin ct cout =
            ⟨s1, false, false⟩ := by
          simp [handleRollCallResponse, hr, IsUserERPRecorded, hs1, hrec]
        rw [hout]
        refine ⟨?_, ?_, ?_, ?_⟩
        · constructor
          · intro hc; cases hc
          · rintro ⟨s1x, rc1x, hresp, hfalse⟩
            simp only [Except.ok.injEq, Prod.mk.injEq] at hresp
            obtain ⟨he1, he2, -⟩ := hresp
            subst he1; subst he2
            rw [hIs] at hfalse
            simp [hrec] at hfalse
        · intro fmt _ hc; cases hc
        · intro e hcin hc; cases hc
        · intro s1x rc1x hresp
          simp at hresp
      · have hokfalse : IsUserERPRecorded s1 ch user = Except.ok false := by
          rw [hIs]; simp [hrec]
        cases cin with
        | error e =>
          have hout : handleRollCallResponse s ch user (Except.error e) ct cout =
              ⟨s1, true, false⟩ := by
            simp [handleRollCallResponse, hr, IsUserERPRecorded, hs1, hrec]
          rw [hout]
          refine ⟨?_, ?_, ?_, ?_⟩
          · exact ⟨fun _ => ⟨s1, rc1, rfl, hokfalse⟩, fun _ => rfl⟩
          · intro fmt hfmt _
            cases hfmt
          · intro e2 _ _
            exact ⟨hokfalse, rc1, hs1, hmem1⟩
          · intro s1x rc1x hresp
            simp at hresp
        | ok fmt =>
          cases ct with
          | error e2 =>
            have hout : handleRollCallResponse s ch user (Except.ok fmt)
                (Except.error e2) cout =
                ⟨applyMark s1 (MarkUserERPRecorded s1 ch user), true, false⟩ := by
              simp [handleRollCallResponse, hr, IsUserERPRecorded, hs1, hrec]
            rw [hout]
            refine ⟨⟨fun _ => ⟨s1, rc1, rfl, hokfalse⟩, fun _ => rfl⟩, ?_, ?_, ?_⟩
            · intro fmt2 _ _
              exact isUserERP_applyMark_mark hs1
            · intro e hcin2
              cases hcin2
            · intro s1x rc1x hresp
              simp at hresp
          | ok ctstr =>
            cases cout with
            | error e3 =>
              have hout : handleRollCallResponse s ch user (Except.ok fmt)
                  (Except.ok ctstr) (Except.error e3) =
                  ⟨applyMark s1 (MarkUserERPRecorded s1 ch user), true, true⟩ := by
                simp [handleRollCallResponse, hr, IsUserERPRecorded, hs1, hrec]
              rw [hout]
              refine ⟨⟨fun _ => ⟨s1, rc1, rfl, hokfalse⟩, fun _ => rfl⟩, ?_, ?_, ?_⟩
              · intro fmt2 _ _
                exact isUserERP_applyMark_mark hs1
              · intro e hcin2
                cases hcin2
              · intro s1x rc1x hresp
                simp at hresp
            | ok o =>
              have hout : handleRollCallResponse s ch user (Except.ok fmt)
                  (Except.ok ctstr) (Except.ok o) =
                  ⟨applyMark (applyMark s1 (MarkUserERPRecorded s1 ch user))
                    (MarkUserCheckoutRecorded
                      (applyMark s1 (MarkUserERPRecorded s1 ch user)) ch user),
                    true, true⟩ := by
                simp [handleRollCallResponse, hr, IsUserERPRecorded, hs1, hrec]
              rw [hout]
              refine ⟨⟨fun _ => ⟨s1, rc1, rfl, hokfalse⟩, fun _ => rfl⟩, ?_, ?_, ?_⟩
              · intro fmt2 _ _
                show IsUserERPRecorded
                  (applyMark (applyMark s1 (MarkUserERPRecorded s1 ch user))
                    (MarkUserCheckoutRecorded
                      (applyMark s1 (MarkUserERPRecorded s1 ch user)) ch user))
                  ch user = Except.ok true
                rw [isUserERP_applyMark_markCheckout]
                exact isUserERP_applyMark_mark hs1
              · intro e hcin2
                cases hcin2
              · intro s1x rc1x hresp
                simp at hresp

/-- C2 witness: with a live session and a failing ERP call, the checkin
call is invoked and the recorded flag stays false while the user is kept
in the responder set. -/
theorem checkin_sync_gating_witness :
    (handleRollCallResponse startedStore "c" "u1" (Except.error "down")
        (Except.ok "x") (Except.ok "y")).calledCheckin = true ∧
    IsUserERPRecorded (handleRollCallResponse startedStore "c" "u1"
        (Except.error "down") (Except.ok "x") (Except.ok "y")).store
      "c" "u1" = Except.ok false :=
  ⟨by decide,
    ((checkin_sync_gating startedStore "c" "u1" (Except.error "down")
      (Except.ok "x") (Except.ok "y")).2.2.1 "down" rfl (by decide)).1⟩

/-- Store after one response whose ERP sync failed. -/
def failedOnceStore : Store :=
  (handleRollCallResponse startedStore "c" "u1" (Except.error "down")
    (Except.ok "x") (Except.ok "y")).store

/-- C2 counterexample: after a failed sync the recorded flag is still
false, yet a repeated response by the same user does not retry the sync:
the checkin call is not invoked again even though the ERP would now
succeed, because the handler gates on isNewResponse. -/
theorem repeated_response_no_retry_counterexample :
    IsUserERPRecorded failedOnceStore "c" "u1" = Except.ok false ∧
    (handleRollCallResponse failedOnceStore "c" "u1" (Except.ok "t")
      (Except.ok "x") (Except.ok "y")).calledCheckin = false :=
  ⟨by decide, by decide⟩

end ChatbotPlugin
